import Mathlib

/-!
Shallow embedding of the simple-crypto-admin-dashboard front-end core:
the data-table controller (DataTableShell + ServerDataTable +
useServerDataTable), the debounced search controller, the query builder,
the paging calculator, the HTTP error mapping, and the auth/session
storage helpers.  Each definition is translated from the TypeScript
source; the doc comment of a definition names the source function it
embeds.  JavaScript strings are modelled as Lean `String` with
character-list implementations of the string operations the source uses
(`trim`, `split`, `replace`, `startsWith`, `length`), JavaScript numbers
occurring in the embedded code are modelled as `Nat`/`Int` (JSON numbers
as `Rat`), and JavaScript records / `URLSearchParams` as association
lists with set-replaces-existing-key semantics.
-/

/-! ## JavaScript string primitives (character-list models) -/

/-- Model of JavaScript `String.prototype.trim` on a character list:
drop whitespace from both ends. -/
def chTrim (cs : List Char) : List Char :=
  (((cs.dropWhile Char.isWhitespace).reverse).dropWhile Char.isWhitespace).reverse

/-- Model of JavaScript `value.trim()`. -/
def jsTrim (s : String) : String := ⟨chTrim s.data⟩

/-- Split a character list on a single separator character
(model of JavaScript `str.split(sep)` for a one-character separator;
like JS, the empty string yields one empty field). -/
def chSplit (sep : Char) : List Char → List (List Char)
  | [] => [[]]
  | c :: rest =>
    let r := chSplit sep rest
    if c = sep then [] :: r
    else
      match r with
      | [] => [[c]]
      | g :: gs => (c :: g) :: gs

/-- Model of JavaScript `token.split(".")` (one-character separator). -/
def jsSplit (sep : Char) (s : String) : List String :=
  (chSplit sep s.data).map (fun cs => ⟨cs⟩)

/-- Model of JavaScript `s.replace(/a/g, b)` for one-character patterns
(global single-character replacement). -/
def jsReplaceChar (a b : Char) (s : String) : String :=
  ⟨s.data.map (fun c => if c = a then b else c)⟩

/-- `listStartsWith pat cs` is true when `pat` is an initial segment of `cs`. -/
def listStartsWith : List Char → List Char → Bool
  | [], _ => true
  | _ :: _, [] => false
  | p :: ps, c :: cs => p == c && listStartsWith ps cs

/-- Model of JavaScript `s.startsWith(p)`. -/
def jsStartsWith (s p : String) : Bool := listStartsWith p.data s.data

/-- Model of JavaScript `s.length` (for the ASCII strings this code
handles, UTF-16 length and character count coincide). -/
def jsStrLength (s : String) : Nat := s.data.length

/-- JavaScript string truthiness for a `string | null | undefined` value:
`null`/`undefined` and the empty string are falsy. -/
def jsTruthy : Option String → Bool
  | none => false
  | some s => s != ""

/-! ## JavaScript records / URLSearchParams as association lists

All record objects built by the embedded code are keyed by strings and
are only ever written through "set" operations, so they are modelled as
association lists where setting an existing key replaces its value in
place and setting a new key appends it (the behaviour of both plain
object assignment and `URLSearchParams.set` for duplicate-free lists). -/

/-- Look up a key (model of `obj[key]` / `params.get(key)`);
`none` models `undefined` / `null`. -/
def jsGet {α : Type} : List (String × α) → String → Option α
  | [], _ => none
  | p :: rest, k => if p.1 == k then some p.2 else jsGet rest k

/-- Look up a key with a default (model of `obj[key] ?? dflt`). -/
def jsGetD {α : Type} (r : List (String × α)) (k : String) (dflt : α) : α :=
  (jsGet r k).getD dflt

/-- Set a key (model of `obj[key] = v` / `params.set(key, v)`):
replace the existing entry in place, else append. -/
def jsSet {α : Type} : List (String × α) → String → α → List (String × α)
  | [], k, v => [(k, v)]
  | p :: rest, k, v => if p.1 == k then (k, v) :: rest else p :: jsSet rest k v

/-- Remove a key (model of `localStorage.removeItem(key)` /
`delete obj[key]`). -/
def jsRemove {α : Type} : List (String × α) → String → List (String × α)
  | [], _ => []
  | p :: rest, k => if p.1 == k then jsRemove rest k else p :: jsRemove rest k

/-! ## Base64 decoding (the browser `atob`, WHATWG forgiving-base64) -/

/-- ASCII whitespace stripped by forgiving-base64 decoding. -/
def isB64Whitespace (c : Char) : Bool :=
  c = ' ' || c = Char.ofNat 9 || c = Char.ofNat 10 || c = Char.ofNat 12 || c = Char.ofNat 13

/-- Value of one base64 alphabet character; `none` for characters
outside the alphabet (which make `atob` throw). -/
def b64Val (c : Char) : Option Nat :=
  if 'A' ≤ c ∧ c ≤ 'Z' then some (c.toNat - 65)
  else if 'a' ≤ c ∧ c ≤ 'z' then some (c.toNat - 97 + 26)
  else if '0' ≤ c ∧ c ≤ '9' then some (c.toNat - 48 + 52)
  else if c = '+' then some 62
  else if c = '/' then some 63
  else none

/-- Strip one or two trailing padding characters. -/
def stripB64Pad (cs : List Char) : List Char :=
  match cs.reverse with
  | '=' :: '=' :: r => r.reverse
  | '=' :: r => r.reverse
  | _ => cs

/-- Convert a list of 6-bit values into the decoded bytes
(groups of four values give three bytes; a trailing pair or triple
gives one or two bytes, spare bits discarded). -/
def b64Bytes : List Nat → List Char
  | a :: b :: c :: d :: rest =>
    Char.ofNat (a * 4 + b / 16) :: Char.ofNat ((b % 16) * 16 + c / 4) ::
      Char.ofNat ((c % 4) * 64 + d) :: b64Bytes rest
  | [a, b] => [Char.ofNat (a * 4 + b / 16)]
  | [a, b, c] => [Char.ofNat (a * 4 + b / 16), Char.ofNat ((b % 16) * 16 + c / 4)]
  | _ => []

/-- Model of the browser `atob` (WHATWG forgiving-base64 decode):
strip ASCII whitespace, strip up to two `=` pads when the length is a
multiple of four, reject a remainder of one or any character outside
the alphabet, and emit one byte-valued character per 8 decoded bits.
`none` models the `InvalidCharacterError` that `atob` throws. -/
def atob (s : String) : Option String :=
  let cs := s.data.filter (fun c => !(isB64Whitespace c))
  let cs := if cs.length % 4 = 0 then stripB64Pad cs else cs
  if cs.length % 4 = 1 then none
  else if cs.any (fun c => (b64Val c).isNone) then none
  else some ⟨b64Bytes (cs.filterMap b64Val)⟩

/-! ## A JSON value model and parser (the `JSON.parse` the code relies on)

Only needed to embed `decodeJwtExp`, which runs `JSON.parse` on the
decoded JWT payload and reads its `exp` member.  JSON numbers are
modelled as `Rat`.  Duplicate object keys follow the JavaScript
last-assignment-wins rule via `jsSet`. -/

inductive JsonValue where
  | jnull
  | jbool (b : Bool)
  | jnum (q : Rat)
  | jstr (s : String)
  | jarr (elems : List JsonValue)
  | jobj (fields : List (String × JsonValue))

/-- The double-quote character. -/
def jsonQuote : Char := Char.ofNat 34

/-- The backslash character. -/
def jsonBackslash : Char := Char.ofNat 92

/-- The opening-brace character. -/
def jsonLBrace : Char := Char.ofNat 123

/-- The closing-brace character. -/
def jsonRBrace : Char := Char.ofNat 125

/-- JSON insignificant whitespace. -/
def isJsonWs (c : Char) : Bool :=
  c = ' ' || c = Char.ofNat 9 || c = Char.ofNat 10 || c = Char.ofNat 13

/-- Skip insignificant whitespace. -/
def skipJsonWs (cs : List Char) : List Char := cs.dropWhile isJsonWs

/-- Value of one hexadecimal digit. -/
def hexVal (c : Char) : Option Nat :=
  if c.isDigit then some (c.toNat - 48)
  else if 'a' ≤ c ∧ c ≤ 'f' then some (c.toNat - 97 + 10)
  else if 'A' ≤ c ∧ c ≤ 'F' then some (c.toNat - 65 + 10)
  else none

/-- Value of a four-hex-digit escape. -/
def hex4 (a b c d : Char) : Option Nat :=
  match hexVal a, hexVal b, hexVal c, hexVal d with
  | some x, some y, some z, some w => some (((x * 16 + y) * 16 + z) * 16 + w)
  | _, _, _, _ => none

/-- Parse the body of a JSON string after its opening quote; returns the
decoded characters and the remaining input.  Fuelled by the input length
(each step consumes at least one character). -/
def parseStrChars : Nat → List Char → List Char → Option (List Char × List Char)
  | _, [], _ => none
  | 0, _ :: _, _ => none
  | Nat.succ f, c :: rest, acc =>
    if c = jsonQuote then some (acc, rest)
    else if c = jsonBackslash then
      match rest with
      | [] => none
      | e :: r2 =>
        if e = jsonQuote then parseStrChars f r2 (acc ++ [jsonQuote])
        else if e = jsonBackslash then parseStrChars f r2 (acc ++ [jsonBackslash])
        else if e = '/' then parseStrChars f r2 (acc ++ ['/'])
        else if e = 'b' then parseStrChars f r2 (acc ++ [Char.ofNat 8])
        else if e = 'f' then parseStrChars f r2 (acc ++ [Char.ofNat 12])
        else if e = 'n' then parseStrChars f r2 (acc ++ [Char.ofNat 10])
        else if e = 'r' then parseStrChars f r2 (acc ++ [Char.ofNat 13])
        else if e = 't' then parseStrChars f r2 (acc ++ [Char.ofNat 9])
        else if e = 'u' then
          match r2 with
          | a :: b :: c2 :: d :: r3 =>
            match hex4 a b c2 d with
            | some n => parseStrChars f r3 (acc ++ [Char.ofNat n])
            | none => none
          | _ => none
        else none
    else if c.toNat < 32 then none
    else parseStrChars f rest (acc ++ [c])

/-- Digits to the natural number they denote. -/
def digitsToNat (ds : List Char) : Nat :=
  ds.foldl (fun n c => n * 10 + (c.toNat - 48)) 0

/-- Parse a JSON number (strict JSON grammar: optional minus, no leading
zeros, optional fraction and exponent) into a `Rat`. -/
def parseJsonNumber (input : List Char) : Option (Rat × List Char) :=
  let signSplit : Bool × List Char :=
    match input with
    | '-' :: r => (true, r)
    | r => (false, r)
  let neg := signSplit.1
  let afterSign := signSplit.2
  let intSplit := afterSign.span Char.isDigit
  let intDigits := intSplit.1
  let rest1 := intSplit.2
  if intDigits.isEmpty then none
  else if intDigits.length > 1 ∧ intDigits.headD '0' = '0' then none
  else
    let intPart : Rat := ((digitsToNat intDigits : Int) : Rat)
    let fracRes : Option (Rat × List Char) :=
      match rest1 with
      | '.' :: r =>
        let fracSplit := r.span Char.isDigit
        if fracSplit.1.isEmpty then none
        else
          some (intPart + ((digitsToNat fracSplit.1 : Int) : Rat) / ((10 : Rat) ^ fracSplit.1.length),
            fracSplit.2)
      | r => some (intPart, r)
    match fracRes with
    | none => none
    | some (base, rest2) =>
      let expRes : Option (Rat × List Char) :=
        match rest2 with
        | e :: r =>
          if e = 'e' ∨ e = 'E' then
            let signedDigits : Int × List Char :=
              match r with
              | '+' :: r2 => (1, r2)
              | '-' :: r2 => (-1, r2)
              | r2 => (1, r2)
            let expSplit := signedDigits.2.span Char.isDigit
            if expSplit.1.isEmpty then none
            else
              some (base * (10 : Rat) ^ (signedDigits.1 * (digitsToNat expSplit.1 : Int)), expSplit.2)
          else some (base, rest2)
        | [] => some (base, rest2)
      match expRes with
      | none => none
      | some (q, rest3) => some ((if neg then -q else q), rest3)

mutual

/-- Parse one JSON value.  Fuelled; the top-level caller supplies ample
fuel, and exhaustion only yields `none` (a parse failure), never a wrong
result. -/
def jsonParseVal : Nat → List Char → Option (JsonValue × List Char)
  | 0, _ => none
  | Nat.succ f, input =>
    match skipJsonWs input with
    | [] => none
    | c :: rest =>
      if c = jsonQuote then
        (parseStrChars (rest.length + 1) rest []).map
          (fun p => (JsonValue.jstr ⟨p.1⟩, p.2))
      else if c = jsonLBrace then
        match skipJsonWs rest with
        | [] => none
        | c2 :: r2 =>
          if c2 = jsonRBrace then some (JsonValue.jobj [], r2)
          else jsonParseFields f (c2 :: r2) []
      else if c = '[' then
        match skipJsonWs rest with
        | [] => none
        | c2 :: r2 =>
          if c2 = ']' then some (JsonValue.jarr [], r2)
          else jsonParseElems f (c2 :: r2) []
      else if c = 'n' then
        match rest with
        | 'u' :: 'l' :: 'l' :: r => some (JsonValue.jnull, r)
        | _ => none
      else if c = 't' then
        match rest with
        | 'r' :: 'u' :: 'e' :: r => some (JsonValue.jbool true, r)
        | _ => none
      else if c = 'f' then
        match rest with
        | 'a' :: 'l' :: 's' :: 'e' :: r => some (JsonValue.jbool false, r)
        | _ => none
      else if c = '-' then
        (parseJsonNumber (c :: rest)).map (fun p => (JsonValue.jnum p.1, p.2))
      else if c.isDigit then
        (parseJsonNumber (c :: rest)).map (fun p => (JsonValue.jnum p.1, p.2))
      else none

/-- Parse the elements of a non-empty JSON array. -/
def jsonParseElems : Nat → List Char → List JsonValue → Option (JsonValue × List Char)
  | 0, _, _ => none
  | Nat.succ f, input, acc =>
    match jsonParseVal f input with
    | none => none
    | some (v, rest) =>
      match skipJsonWs rest with
      | ',' :: r2 => jsonParseElems f r2 (acc ++ [v])
      | ']' :: r2 => some (JsonValue.jarr (acc ++ [v]), r2)
      | _ => none

/-- Parse the members of a non-empty JSON object (duplicate keys:
last assignment wins, as in JavaScript). -/
def jsonParseFields : Nat → List Char → List (String × JsonValue) → Option (JsonValue × List Char)
  | 0, _, _ => none
  | Nat.succ f, input, acc =>
    match skipJsonWs input with
    | [] => none
    | c :: rest =>
      if c = jsonQuote then
        match parseStrChars (rest.length + 1) rest [] with
        | none => none
        | some (keyChars, rest1) =>
          match skipJsonWs rest1 with
          | ':' :: rest2 =>
            match jsonParseVal f rest2 with
            | none => none
            | some (v, rest3) =>
              let acc2 := jsSet acc ⟨keyChars⟩ v
              match skipJsonWs rest3 with
              | ',' :: rest4 => jsonParseFields f rest4 acc2
              | c4 :: rest4 =>
                if c4 = jsonRBrace then some (JsonValue.jobj acc2, rest4) else none
              | [] => none
          | _ => none
      else none

end

/-- Model of `JSON.parse`: parse one value, then require only trailing
whitespace; `none` models the `SyntaxError` that `JSON.parse` throws. -/
def jsonParse (s : String) : Option JsonValue :=
  match jsonParseVal (s.data.length * 2 + 16) s.data with
  | none => none
  | some (v, rest) => if skipJsonWs rest = [] then some v else none

/-! ## Auth storage (src/src/lib/authStorage.ts) -/

/-- Translated from `decodeJwtExp` (src/src/lib/authStorage.ts lines
8-21): split the token on dots, base64url-decode the second part, parse
it as JSON, and return its `exp` member when that is a number; every
failure along the way (caught by the source's try/catch) yields `none`. -/
def decodeJwtExp (token : String) : Option Rat :=
  let parts := jsSplit '.' token
  if parts.length < 2 then none
  else
    let payloadBase64 := jsReplaceChar '_' '/' (jsReplaceChar '-' '+' ((parts.get? 1).getD ""))
    match atob payloadBase64 with
    | none => none
    | some payloadJson =>
      match jsonParse payloadJson with
      | some (JsonValue.jobj fields) =>
        match jsGet fields "exp" with
        | some (JsonValue.jnum q) => some q
        | _ => none
      | _ => none

/-- Translated from `isTokenExpired` (src/src/lib/authStorage.ts lines
23-31).  `nowSeconds` models `Math.floor(Date.now() / 1000)`.  Note the
source's `if (!exp) return false`: both an undecodable expiry (`null`)
and a zero expiry are falsy and make the token count as not expired. -/
def isTokenExpired (token : String) (nowSeconds : Int) : Bool :=
  match decodeJwtExp token with
  | none => false
  | some exp => if exp = 0 then false else decide (exp ≤ (nowSeconds : Rat))

/-- Translated from `loadAuthToken` (src/src/lib/authStorage.ts lines
33-48).  `store` models `localStorage` (in-browser, so the
`typeof window === "undefined"` guard is not taken); the result is the
returned token together with the store after any removals. -/
def loadAuthToken (store : List (String × String)) (nowSeconds : Int) :
    Option String × List (String × String) :=
  match jsGet store "authToken" with
  | none => (none, store)
  | some token =>
    if token = "" then (none, store)
    else if isTokenExpired token nowSeconds then
      (none, jsRemove (jsRemove store "authToken") "authUser")
    else (some token, store)

/-! ## HTTP client helpers (src/src/lib/httpClient.ts, src/unnamed/part_003) -/

/-- Translated from `buildAuthHeader` (src/src/lib/httpClient.ts lines
71-77 and src/unnamed/part_003 lines 280-286): a falsy token
(`null`/`undefined`/empty) yields no header; otherwise the token is
returned as-is when it already carries the `Bearer ` marker and gets it
attached otherwise. -/
def buildAuthHeader (token : Option String) : Option String :=
  match token with
  | none => none
  | some t =>
    if t = "" then none
    else if jsStartsWith t "Bearer " then some t
    else some ("Bearer " ++ t)

/-! ## Paging calculator (src/unnamed/part_001 lines 315-345, `getDataTablePaging`) -/

structure DataTablePagingInfo where
  currentFrom : Nat
  currentTo : Nat
  totalForDisplay : Nat
  totalPages : Nat
  currentPage : Nat
deriving DecidableEq

/-- Translated from `getDataTablePaging` (src/unnamed/part_001 lines
315-345).  `recordsFiltered || recordsTotal` is the JavaScript falsy
fallback (zero falls through to `recordsTotal`); `Math.ceil` of the
division is the usual natural-number ceiling once `pageSize > 0`. -/
def getDataTablePaging (pageIndex pageSize recordsTotal recordsFiltered : Nat) :
    DataTablePagingInfo :=
  let totalForDisplay := if recordsFiltered ≠ 0 then recordsFiltered else recordsTotal
  let totalPages :=
    if pageSize > 0 then max 1 ((totalForDisplay + pageSize - 1) / pageSize) else 1
  let currentPage := pageIndex + 1
  let start := pageIndex * pageSize
  let currentFrom := if totalForDisplay = 0 then 0 else start + 1
  let currentTo := min (start + pageSize) totalForDisplay
  ⟨currentFrom, currentTo, totalForDisplay, totalPages, currentPage⟩

/-- Translated from the `goToPage` closure of `getDataTablePaging`:
clamp the requested one-based page into `[1, totalPages]` and hand the
zero-based index to the page-index setter (returned here). -/
def goToPage (totalPages : Nat) (page : Int) : Nat :=
  (min (max page 1) (totalPages : Int) - 1).toNat

/-! ## Query builder (src/unnamed/part_001 lines 347-388, `buildDataTablesQueryParams`) -/

inductive SortDir where
  | asc
  | desc
deriving DecidableEq

/-- The wire string of a sort direction. -/
def SortDir.str : SortDir → String
  | .asc => "asc"
  | .desc => "desc"

/-- A value of the TypeScript type `string | number | null | undefined`
appearing in `extraFilters`. -/
inductive QueryParamValue where
  | vStr (s : String)
  | vNum (n : Int)
  | vNull
  | vUndef
deriving DecidableEq

/-- JavaScript `String(value)` on a `QueryParamValue`. -/
def QueryParamValue.jsToString : QueryParamValue → String
  | .vStr s => s
  | .vNum n => toString n
  | .vNull => "null"
  | .vUndef => "undefined"

structure DataTablesQueryOptions where
  start : Nat
  length : Nat
  search : Option String
  sortColumn : Nat
  sortDir : SortDir
  extraFilters : List (String × QueryParamValue)
deriving DecidableEq

/-- One step of the `extraFilters` loop in `buildDataTablesQueryParams`:
skip `null`/`undefined`, trim the stringified value, skip blanks, else
set the entry. -/
def applyExtraFilter (ps : List (String × String)) (kv : String × QueryParamValue) :
    List (String × String) :=
  match kv.2 with
  | .vNull => ps
  | .vUndef => ps
  | v =>
    let str := jsTrim v.jsToString
    if str = "" then ps else jsSet ps kv.1 str

/-- Translated from `buildDataTablesQueryParams` (src/unnamed/part_001
lines 356-388).  The returned association list models the
`URLSearchParams` in insertion order.  Note the source sets the `draw`
parameter to the literal string `"1"`. -/
def buildDataTablesQueryParams (o : DataTablesQueryOptions) : List (String × String) :=
  let params := jsSet ([] : List (String × String)) "draw" "1"
  let params := jsSet params "start" (toString o.start)
  let params := jsSet params "length" (toString o.length)
  let params :=
    match o.search with
    | none => params
    | some s =>
      let trimmedSearch := jsTrim s
      if trimmedSearch ≠ "" then jsSet params "search[value]" trimmedSearch else params
  let params := o.extraFilters.foldl applyExtraFilter params
  let params := jsSet params "order[0][column]" (toString o.sortColumn)
  jsSet params "order[0][dir]" o.sortDir.str

/-! ## Debounced search controller (src/unnamed/part_001 lines 253-296, `useDebouncedSearch`) -/

/-- The observable state of `useDebouncedSearch`: the committed
`search`, the raw `pendingSearch`, the pending debounce timer (delay and
the trimmed value it would commit; `none` when no timer is armed), and
the log of values passed to `onCommit` (latest last). -/
structure DebounceState where
  search : String
  pendingSearch : String
  scheduled : Option (Nat × String)
  commits : List String
deriving DecidableEq

/-- Translated from the `useEffect` body of `useDebouncedSearch`
(src/unnamed/part_001 lines 269-287), which runs whenever
`pendingSearch` changes: trim the value; commit immediately when the
trimmed length reaches `minLength` or is zero, else arm a timer for
`delayMs`.  React runs the previous effect's cleanup
(`clearTimeout`) first, so any previously armed timer is cancelled in
both branches (`scheduled` is overwritten). -/
def debounceOnChange (minLength delayMs : Nat) (st : DebounceState) (value : String) :
    DebounceState :=
  let trimmed := jsTrim value
  if jsStrLength trimmed ≥ minLength ∨ jsStrLength trimmed = 0 then
    { search := trimmed, pendingSearch := value, scheduled := none,
      commits := st.commits ++ [trimmed] }
  else
    { search := st.search, pendingSearch := value, scheduled := some (delayMs, trimmed),
      commits := st.commits }

/-- The armed timer fires after its delay of inactivity: commit the
stored trimmed value (src/unnamed/part_001 lines 279-282). -/
def debounceTimerFire (st : DebounceState) : DebounceState :=
  match st.scheduled with
  | none => st
  | some (_, trimmed) =>
    { search := trimmed, pendingSearch := st.pendingSearch, scheduled := none,
      commits := st.commits ++ [trimmed] }

/-- Translated from `reset` (src/unnamed/part_001 lines 289-293)
composed with the effect re-run it triggers: `reset` itself sets both
values to the empty string and calls `onCommit("")`; when
`pendingSearch` actually changed, the effect runs again on the empty
string (committing it again and disarming any timer). -/
def debounceReset (minLength delayMs : Nat) (st : DebounceState) : DebounceState :=
  let st1 : DebounceState :=
    { search := "", pendingSearch := "", scheduled := st.scheduled,
      commits := st.commits ++ [""] }
  if st.pendingSearch = "" then st1 else debounceOnChange minLength delayMs st1 ""

/-! ## Column filter definitions and state
(src/src/components/tables/ServerDataTable.tsx) -/

/-- A `DataTableFilterConfigDefinition`: the author-supplied, stateless
filter declaration of a column (render-only fields such as placeholders
and select options are omitted; they never reach the query logic). -/
inductive FilterConfigDefinition where
  | text (queryKey : Option String)
  | select (queryKey : Option String)
  | numberRange (minQueryKey maxQueryKey : Option String)
  | dateRange (fromQueryKey toQueryKey : Option String)
deriving DecidableEq

/-- A `DataTableFilterConfig` as produced by `buildConfig`: the
declaration bound to the shared `filterState` record.  The source's
getter closures (`getValue`, `getMin`, ...) read
`filterState[resolvedKey] ?? ""` at call time; since `filterState` is
fixed while `getFilterStateFromColumns` runs, they are modelled by the
resolved values.  The `queryKey` fields are copied through unchanged
(in particular they stay `undefined` when undeclared). -/
inductive BoundFilterConfig where
  | text (value : String) (queryKey : Option String)
  | select (value : String) (queryKey : Option String)
  | numberRange (minValue maxValue : String) (minQueryKey maxQueryKey : Option String)
  | dateRange (fromValue toValue : String) (fromQueryKey toQueryKey : Option String)
deriving DecidableEq

/-- Translated from `buildConfig`
(src/src/components/tables/ServerDataTable.tsx lines 157-227): resolve
each state key as the declared query key, falling back to the derived
`<columnId>:min` / `<columnId>:max` / `<columnId>:from` / `<columnId>:to`
(or the column id for text/select), and bind the current values. -/
def buildConfig (columnId : String) (filterState : List (String × String)) :
    Option FilterConfigDefinition → Option BoundFilterConfig
  | none => none
  | some (.text qk) =>
    let key := qk.getD columnId
    some (.text (jsGetD filterState key "") qk)
  | some (.select qk) =>
    let key := qk.getD columnId
    some (.select (jsGetD filterState key "") qk)
  | some (.numberRange minQK maxQK) =>
    let minKey := minQK.getD (columnId ++ ":min")
    let maxKey := maxQK.getD (columnId ++ ":max")
    some (.numberRange (jsGetD filterState minKey "") (jsGetD filterState maxKey "") minQK maxQK)
  | some (.dateRange fromQK toQK) =>
    let fromKey := fromQK.getD (columnId ++ ":from")
    let toKey := toQK.getD (columnId ++ ":to")
    some (.dateRange (jsGetD filterState fromKey "") (jsGetD filterState toKey "") fromQK toQK)

/-- A column as fed to `ServerDataTable`: its id and its author-supplied
header/footer filter declarations. -/
structure ServerDataTableColumn where
  id : String
  filterConfigHeader : Option FilterConfigDefinition
  filterConfigFooter : Option FilterConfigDefinition
deriving DecidableEq

/-- A column after the `columnsWithState` mapping bound its filter
declarations to `filterState`. -/
structure BoundColumn where
  id : String
  filterConfigHeader : Option BoundFilterConfig
  filterConfigFooter : Option BoundFilterConfig
deriving DecidableEq

/-- The `columnsWithState` step for one column
(src/src/components/tables/ServerDataTable.tsx lines 154-236). -/
def bindColumn (filterState : List (String × String)) (col : ServerDataTableColumn) :
    BoundColumn :=
  ⟨col.id, buildConfig col.id filterState col.filterConfigHeader,
    buildConfig col.id filterState col.filterConfigFooter⟩

/-- The result of `getFilterStateFromColumns`: the derived extra-filter
query contributions and the raw dependency values. -/
structure FilterStateResult where
  extraFilters : List (String × String)
  filterDeps : List String
deriving DecidableEq

/-- The loop body of `getFilterStateFromColumns`
(src/src/components/tables/ServerDataTable.tsx lines 51-105) for one
column: pick the header config, falling back to the footer config
(`??`); for text/select use the declared key or the column id and keep
non-blank trimmed values; for the range kinds use only the *declared*
keys — `if (minKey && trimmedMin)` requires a truthy declared key, so an
undeclared (or empty-string) key contributes nothing, while the raw
value is still pushed onto `filterDeps`. -/
def filterStep (acc : FilterStateResult) (col : BoundColumn) : FilterStateResult :=
  match col.filterConfigHeader.orElse (fun _ => col.filterConfigFooter) with
  | none => acc
  | some (.text v qk) =>
    let key := qk.getD col.id
    let deps := acc.filterDeps ++ [v]
    let trimmed := jsTrim v
    if trimmed ≠ "" then ⟨jsSet acc.extraFilters key trimmed, deps⟩
    else ⟨acc.extraFilters, deps⟩
  | some (.select v qk) =>
    let key := qk.getD col.id
    let deps := acc.filterDeps ++ [v]
    let trimmed := jsTrim v
    if trimmed ≠ "" then ⟨jsSet acc.extraFilters key trimmed, deps⟩
    else ⟨acc.extraFilters, deps⟩
  | some (.numberRange minV maxV minQK maxQK) =>
    let deps1 := acc.filterDeps ++ [minV]
    let trimmedMin := jsTrim minV
    let ef1 :=
      match minQK with
      | some k => if k ≠ "" ∧ trimmedMin ≠ "" then jsSet acc.extraFilters k trimmedMin
                  else acc.extraFilters
      | none => acc.extraFilters
    let deps2 := deps1 ++ [maxV]
    let trimmedMax := jsTrim maxV
    let ef2 :=
      match maxQK with
      | some k => if k ≠ "" ∧ trimmedMax ≠ "" then jsSet ef1 k trimmedMax else ef1
      | none => ef1
    ⟨ef2, deps2⟩
  | some (.dateRange fromV toV fromQK toQK) =>
    let deps1 := acc.filterDeps ++ [fromV]
    let trimmedFrom := jsTrim fromV
    let ef1 :=
      match fromQK with
      | some k => if k ≠ "" ∧ trimmedFrom ≠ "" then jsSet acc.extraFilters k trimmedFrom
                  else acc.extraFilters
      | none => acc.extraFilters
    let deps2 := deps1 ++ [toV]
    let trimmedTo := jsTrim toV
    let ef2 :=
      match toQK with
      | some k => if k ≠ "" ∧ trimmedTo ≠ "" then jsSet ef1 k trimmedTo else ef1
      | none => ef1
    ⟨ef2, deps2⟩

/-- Translated from `getFilterStateFromColumns`
(src/src/components/tables/ServerDataTable.tsx lines 36-108). -/
def getFilterStateFromColumns (cols : List BoundColumn) : FilterStateResult :=
  cols.foldl filterStep ⟨[], []⟩

/-! ## Errors and error-to-message mapping
(src/unnamed/part_003 `ApiError` / `mapApiErrorToMessage`,
src/src/components/tables/ServerDataTable.tsx `defaultMapErrorMessage`) -/

/-- A value caught by the hooks' `catch` blocks: either an `ApiError`
(with its `status`, `statusText` and optional `bodyText`) thrown by
`apiRequest` on a non-2xx response, or anything else. -/
inductive JsError where
  | api (status : Nat) (statusText : String) (bodyText : Option String)
  | other
deriving DecidableEq

/-- The `err instanceof ApiError && err.status === 401` test. -/
def isApi401 : JsError → Bool
  | .api 401 _ _ => true
  | _ => false

/-- The option bag of `mapApiErrorToMessage`
(src/unnamed/part_003 lines 177-184). -/
structure ApiErrorMessageOptions where
  defaultMessage : String
  unauthorizedMessage : Option String
  badRequestMessage : Option String
  notFoundMessage : Option String
  rateLimitMessage : Option String
  serverErrorMessage : Option String
deriving DecidableEq

/-- Translated from `mapApiErrorToMessage` (src/unnamed/part_003 lines
186-224): non-`ApiError` values map to the default message; otherwise
the first status check whose message option is provided wins, falling
through to the default message (the source's sequential
`if (status === s && message) return message` chain). -/
def mapApiErrorToMessage (err : JsError) (o : ApiErrorMessageOptions) : String :=
  match err with
  | .other => o.defaultMessage
  | .api status _ _ =>
    ((if status = 400 then o.badRequestMessage else none).orElse (fun _ =>
      (if status = 401 then o.unauthorizedMessage else none).orElse (fun _ =>
        (if status = 404 then o.notFoundMessage else none).orElse (fun _ =>
          (if status = 429 then o.rateLimitMessage else none).orElse (fun _ =>
            if status ≥ 500 then o.serverErrorMessage else none))))).getD o.defaultMessage

/-- Translated from `defaultMapErrorMessage`
(src/src/components/tables/ServerDataTable.tsx lines 131-139): an
`ApiError` with status 401 maps to the session-expired message, any
other `ApiError` to the generic server message, anything else to the
unexpected-error message. -/
def defaultMapErrorMessage : JsError → String
  | .api status _ _ =>
    if status = 401 then "Your session has expired. Please sign in again."
    else "Failed to load data from server."
  | .other => "An unexpected error occurred while loading data."

/-! ## Server table data hook (src/unnamed/part_001 lines 396-495, `useServerDataTable`) -/

/-- The fetch-related state cells of `useServerDataTable`. -/
structure TableFetchState (α : Type) where
  data : List α
  recordsTotal : Nat
  recordsFiltered : Nat
  loading : Bool
  error : Option String
deriving DecidableEq

/-- The JSON body shape `DataTablesApiResponse` (all fields optional). -/
structure DataTablesApiResponse (α : Type) where
  data : Option (List α)
  recordsTotal : Option Nat
  recordsFiltered : Option Nat
deriving DecidableEq

/-- How one fetch attempt resolves: with a parsed response body, or by
throwing. -/
inductive FetchOutcome (α : Type) where
  | success (resp : DataTablesApiResponse α)
  | failure (err : JsError)
deriving DecidableEq

/-- Translated from the synchronous prologue of the `useServerDataTable`
effect (src/unnamed/part_001 lines 440-451): an empty (falsy) endpoint
suppresses the fetch entirely; otherwise `fetchData` starts —
`setLoading(true)`, `setError(null)` — and the request is issued.  The
returned `Bool` records whether an HTTP request is issued.  Note the
`token` prop is *not* consulted: it is only forwarded into the request
options (line 456), never used as a gate. -/
def serverTableEffectStart {α : Type} (endpoint : String) (token : Option String)
    (st : TableFetchState α) : TableFetchState α × Bool :=
  if endpoint = "" then (st, false)
  else ({ st with loading := true, error := none }, true)

/-- Translated from the resolution of one `fetchData` attempt
(src/unnamed/part_001 lines 452-474): on success, commit
`response.data ?? []`, `response.recordsTotal ?? 0`,
`response.recordsFiltered ?? 0`; on failure, store the mapped message;
finally clear `loading`.  Nothing here consults the attempt's
`AbortController`: its `signal` is never passed to `apiRequest` and no
cancelled flag exists, so a resolution always commits. -/
def serverTableApplyResolve {α : Type} (mapErr : JsError → Option String)
    (st : TableFetchState α) : FetchOutcome α → TableFetchState α
  | .success resp =>
    { st with
      data := resp.data.getD []
      recordsTotal := resp.recordsTotal.getD 0
      recordsFiltered := resp.recordsFiltered.getD 0
      loading := false }
  | .failure err =>
    { st with error := mapErr err, loading := false }

/-- A scheduler event for a `useServerDataTable` instance: `start` is a
dependency change re-running the effect (the previous effect's cleanup
runs first and calls `controller.abort()` on the *previous* attempt's
controller), and `resolve` is the response of some attempt arriving;
its `aborted` flag records whether that attempt's controller was
aborted by a cleanup in the meantime. -/
inductive ServerTableEvent (α : Type) where
  | start
  | resolve (aborted : Bool) (outcome : FetchOutcome α)

/-- Run a sequence of events against the hook state, counting how many
resolutions committed a state update.  Mirroring the source, the
`aborted` flag of a resolution is ignored — aborting the controller has
no effect on state commitment because the signal is never wired into
the request or checked before the `set*` calls. -/
def runServerTableEvents {α : Type} (mapErr : JsError → Option String) :
    TableFetchState α → List (ServerTableEvent α) → TableFetchState α × Nat
  | st, [] => (st, 0)
  | st, ServerTableEvent.start :: rest =>
    runServerTableEvents mapErr { st with loading := true, error := none } rest
  | st, ServerTableEvent.resolve _aborted outcome :: rest =>
    let out := runServerTableEvents mapErr (serverTableApplyResolve mapErr st outcome) rest
    (out.1, out.2 + 1)

/-! ## Reporting hooks (src/src/hooks/useReporting.ts) -/

/-- The fetch-related state cells shared by the reporting hooks
(`useTopTransactionsPerUser`, `useTransactionsVolume`,
`useTopUsersLeaderboard`). -/
structure ReportingState (α : Type) where
  data : List α
  loading : Bool
  error : Option String
deriving DecidableEq

/-- Translated from the token gate and prologue of the reporting hooks'
effects (src/src/hooks/useReporting.ts lines 48-61, 179-192, 362-375):
a falsy token resets the state to empty (`setData([])`,
`setError(null)`, `setLoading(false)`) and returns before any request;
otherwise `load()` begins and the request is issued.  The returned
`Bool` records whether an HTTP request is issued. -/
def reportingEffectStart {α : Type} (token : Option String) (st : ReportingState α) :
    ReportingState α × Bool :=
  if jsTruthy token = false then
    (⟨[], false, none⟩, false)
  else
    ({ st with loading := true, error := none }, true)

/-- Translated from the `catch` blocks of the reporting hooks
(src/src/hooks/useReporting.ts lines 91-107 and analogues): a
resolution observed after cancellation changes nothing; a 401
`ApiError` is swallowed (`return` before `setError`); anything else is
mapped through `mapApiErrorToMessage` and stored. -/
def reportingCatch {α : Type} (cancelled : Bool) (o : ApiErrorMessageOptions)
    (st : ReportingState α) (err : JsError) : ReportingState α :=
  if cancelled then st
  else if isApi401 err then st
  else { st with error := some (mapApiErrorToMessage err o) }

/-! ## Helper lemmas -/

/-- Setting one key leaves lookups of other keys unchanged. -/
theorem jsGet_jsSet_ne {α : Type} (ps : List (String × α)) (k : String) (v : α)
    (k2 : String) (h : k ≠ k2) : jsGet (jsSet ps k v) k2 = jsGet ps k2 := by
  induction ps with
  | nil => simp [jsSet, jsGet, h]
  | cons p rest ih =>
    by_cases hp : p.1 = k
    · simp [jsSet, jsGet, hp, h]
    · simp [jsSet, jsGet, hp, ih]

/-- Looking up the key just set yields the value just set. -/
theorem jsGet_jsSet_self {α : Type} (ps : List (String × α)) (k : String) (v : α) :
    jsGet (jsSet ps k v) k = some v := by
  induction ps with
  | nil => simp [jsSet, jsGet]
  | cons p rest ih =>
    by_cases hp : p.1 = k
    · simp [jsSet, jsGet, hp]
    · simp [jsSet, jsGet, hp, ih]

/-- The `extraFilters` loop of the query builder never touches a key
that none of its entries carry. -/
theorem jsGet_foldl_applyExtraFilter (l : List (String × QueryParamValue))
    (ps : List (String × String)) (k : String) (h : ∀ p ∈ l, p.1 ≠ k) :
    jsGet (l.foldl applyExtraFilter ps) k = jsGet ps k := by
  induction l generalizing ps with
  | nil => rfl
  | cons kv rest ih =>
    have hkv : kv.1 ≠ k := h kv (by simp)
    have hrest : ∀ p ∈ rest, p.1 ≠ k := fun p hp => h p (by simp [hp])
    rw [List.foldl_cons, ih _ hrest]
    rcases kv with ⟨key, val⟩
    cases val <;> simp only [applyExtraFilter] <;> try rfl
    all_goals
      split
      · rfl
      · exact jsGet_jsSet_ne ps key _ k hkv

/-- A pattern is a starting segment of itself followed by anything. -/
theorem listStartsWith_append (p x : List Char) : listStartsWith p (p ++ x) = true := by
  induction p with
  | nil => rfl
  | cons c cs ih => simp [listStartsWith, ih]

/-! ## Claim C2 — paging calculator range invariant -/

/-- Claim C2 counterexample: at `pageIndex = 1`, `pageSize = 10`,
`recordsTotal = 0`, `recordsFiltered = 5`, the total for display is 5
(positive) yet `currentFrom = 11 > 5 = currentTo`, so the claimed
invariant `currentFrom ≤ currentTo whenever totalForDisplay > 0` fails:
a page index pointing past the end of the data breaks it. -/
theorem c2_counterexample_page_past_end :
    0 < (getDataTablePaging 1 10 0 5).totalForDisplay ∧
    ¬ (getDataTablePaging 1 10 0 5).currentFrom ≤ (getDataTablePaging 1 10 0 5).currentTo := by
  decide

/-- Claim C2 (amended): for every `pageIndex ≥ 0` and `pageSize > 0`,
`currentFrom ≤ currentTo` holds whenever `totalForDisplay > 0` *and*
the page start offset `pageIndex * pageSize` lies strictly below
`totalForDisplay` (i.e. the requested page is within range); the
counterexample shows the extra condition is needed. -/
theorem c2_currentFrom_le_currentTo_within_range
    (pageIndex pageSize recordsTotal recordsFiltered : Nat) (hps : 0 < pageSize)
    (htot : 0 < (getDataTablePaging pageIndex pageSize recordsTotal recordsFiltered).totalForDisplay)
    (hin : pageIndex * pageSize <
      (getDataTablePaging pageIndex pageSize recordsTotal recordsFiltered).totalForDisplay) :
    (getDataTablePaging pageIndex pageSize recordsTotal recordsFiltered).currentFrom ≤
      (getDataTablePaging pageIndex pageSize recordsTotal recordsFiltered).currentTo := by
  simp only [getDataTablePaging] at htot hin ⊢
  rw [if_neg (by omega : ¬ (if recordsFiltered ≠ 0 then recordsFiltered else recordsTotal) = 0)]
  omega

/-- Claim C2 witness: the amended theorem applied at `pageIndex = 0`,
`pageSize = 10`, `recordsTotal = 57`, `recordsFiltered = 0`. -/
theorem c2_currentFrom_le_currentTo_within_range_witness :
    (getDataTablePaging 0 10 57 0).currentFrom ≤ (getDataTablePaging 0 10 57 0).currentTo :=
  c2_currentFrom_le_currentTo_within_range 0 10 57 0 (by decide) (by decide) (by decide)

/-! ## Claim C3 — the "draw" token -/

/-- Claim C3 counterexample: two successive calls of the query builder
(here: page one, then page two of the same query) both emit
`draw = "1"`; the token is a constant, not monotonically increasing
across successive calls. -/
theorem c3_counterexample_draw_constant :
    jsGet (buildDataTablesQueryParams ⟨0, 10, none, 0, SortDir.desc, []⟩) "draw" = some "1" ∧
    jsGet (buildDataTablesQueryParams ⟨10, 10, none, 0, SortDir.desc, []⟩) "draw" = some "1" := by
  decide

/-- Claim C3 (amended): the query builder sets the `draw` parameter to
the constant string `"1"` on every call (for any call whose
`extraFilters` do not themselves use the key `"draw"`); it never
increments, so successive emitted queries carry equal — not strictly
increasing — draw tokens. -/
theorem c3_draw_always_one (o : DataTablesQueryOptions)
    (h : ∀ p ∈ o.extraFilters, p.1 ≠ "draw") :
    jsGet (buildDataTablesQueryParams o) "draw" = some "1" := by
  simp only [buildDataTablesQueryParams]
  rw [jsGet_jsSet_ne _ _ _ _ (by decide)]
  rw [jsGet_jsSet_ne _ _ _ _ (by decide)]
  rw [jsGet_foldl_applyExtraFilter _ _ _ h]
  cases o.search with
  | none =>
    rw [jsGet_jsSet_ne _ _ _ _ (by decide), jsGet_jsSet_ne _ _ _ _ (by decide)]
    exact jsGet_jsSet_self _ _ _
  | some s =>
    simp only
    split
    · rw [jsGet_jsSet_ne _ _ _ _ (by decide), jsGet_jsSet_ne _ _ _ _ (by decide),
        jsGet_jsSet_ne _ _ _ _ (by decide)]
      exact jsGet_jsSet_self _ _ _
    · rw [jsGet_jsSet_ne _ _ _ _ (by decide), jsGet_jsSet_ne _ _ _ _ (by decide)]
      exact jsGet_jsSet_self _ _ _

/-- Claim C3 witness: the amended theorem applied to a concrete query
(the transactions table filtering on type). -/
theorem c3_draw_always_one_witness :
    jsGet (buildDataTablesQueryParams
      ⟨0, 10, some "alice", 3, SortDir.asc, [("type", QueryParamValue.vStr "DEBIT")]⟩) "draw"
      = some "1" :=
  c3_draw_always_one ⟨0, 10, some "alice", 3, SortDir.asc, [("type", QueryParamValue.vStr "DEBIT")]⟩
    (by decide)

/-! ## Claim C4 — extra filters from range columns -/

/-- Claim C4 counterexample: an `amount` column declaring a
number-range filter with *no* explicit query keys, whose min value in
`filterState` (stored under the derived key `amount:min`) is the
non-blank string `"5"`: the value is read (it appears in `filterDeps`)
but `extraFilters` stays empty — no entry under the derived key
`amount:min` (or any key) is produced, contradicting the claim. -/
theorem c4_counterexample_undeclared_range_key_dropped :
    jsTrim "5" ≠ "" ∧
    getFilterStateFromColumns
      [bindColumn [("amount:min", "5")]
        ⟨"amount", some (FilterConfigDefinition.numberRange none none), none⟩]
      = ⟨[], ["5", ""]⟩ := by
  decide

/-- Claim C4 (amended): for the range kinds the derived
`<columnId>:min` / `<columnId>:max` (resp. `:from` / `:to`) keys are
used only to store the filter's *local state*; `extraFilters` entries
are produced for a range filter only under an *explicitly declared*,
non-empty query key.  Concretely, for a single range column: with no
declared keys the derived `extraFilters` is empty no matter what the
filter holds, and with a declared min key `k` holding a non-blank
trimmed value that value is included under `k`.  (Text/select filters
do fall back to the column id, as before.) -/
theorem c4_range_filters_require_declared_keys (cid k : String)
    (fs : List (String × String))
    (hk : k ≠ "") (hv : jsTrim (jsGetD fs k "") ≠ "") :
    (getFilterStateFromColumns
        [bindColumn fs ⟨cid, some (FilterConfigDefinition.numberRange none none), none⟩]).extraFilters
      = [] ∧
    (getFilterStateFromColumns
        [bindColumn fs ⟨cid, some (FilterConfigDefinition.dateRange none none), none⟩]).extraFilters
      = [] ∧
    jsGet (getFilterStateFromColumns
        [bindColumn fs
          ⟨cid, some (FilterConfigDefinition.numberRange (some k) none), none⟩]).extraFilters k
      = some (jsTrim (jsGetD fs k "")) := by
  refine ⟨?_, ?_, ?_⟩
  · simp [getFilterStateFromColumns, bindColumn, buildConfig, filterStep, Option.orElse]
  · simp [getFilterStateFromColumns, bindColumn, buildConfig, filterStep, Option.orElse]
  · simp only [getFilterStateFromColumns, bindColumn, buildConfig, List.foldl_cons,
      List.foldl_nil, filterStep, Option.orElse]
    rw [if_pos ⟨hk, hv⟩]
    exact jsGet_jsSet_self _ _ _

/-- Claim C4 witness: the amended theorem applied at column id
`"amount"`, declared min key `"minAmount"`, and filter state holding
`" 5 "` under that key (trimming to the non-blank `"5"`). -/
theorem c4_range_filters_require_declared_keys_witness :
    jsGet (getFilterStateFromColumns
        [bindColumn [("minAmount", " 5 ")]
          ⟨"amount", some (FilterConfigDefinition.numberRange (some "minAmount") none), none⟩]).extraFilters
      "minAmount" = some "5" :=
  (c4_range_filters_require_declared_keys "amount" "minAmount" [("minAmount", " 5 ")]
    (by decide) (by decide)).2.2

/-! ## Claim C1 — useServerDataTable race / cancellation -/

/-- Claim C1 evidence: two dependency changes issue attempts A1 and A2
in succession (the second `start`'s cleanup aborts A1's controller);
A2's response (`["fresh"]`) arrives first and commits, then A1's
superseded response (`["stale"]`) arrives late — and the hook commits
it too, because `useServerDataTable` never passes `controller.signal`
into `apiRequest` and checks no cancelled flag before its `set*` calls.
The run ends with *two* committed state updates and with the final rows
coming from the superseded first request, contradicting the claimed
"only the most recently issued attempt may commit" /
"exactly one committed state update" behaviour. -/
theorem c1_useServerDataTable_superseded_response_still_committed :
    runServerTableEvents (fun err => some (defaultMapErrorMessage err))
      (⟨[], 0, 0, false, none⟩ : TableFetchState String)
      [ServerTableEvent.start, ServerTableEvent.start,
        ServerTableEvent.resolve false (FetchOutcome.success ⟨some ["fresh"], some 2, some 2⟩),
        ServerTableEvent.resolve true (FetchOutcome.success ⟨some ["stale"], some 1, some 1⟩)]
      = (⟨["stale"], 1, 1, false, none⟩, 2) := by
  decide

/-! ## Claim C5 — token gating of data fetching -/

/-- Claim C5 counterexample: with no authentication token at all, the
Server Table Data Hook still issues its HTTP request — its effect gates
only on a falsy endpoint (`if (!endpoint) return`), never on the token,
so "no HTTP request is issued when no token is present" fails for it. -/
theorem c5_counterexample_server_table_fetches_without_token :
    (serverTableEffectStart "/transactions" none
      (⟨[], 0, 0, false, none⟩ : TableFetchState String)).2 = true := by
  decide

/-- Claim C5 (amended): the *reporting* hooks do suppress fetching
without a token — a falsy token (absent or empty) resets their state to
empty rows with no error and issues no request — but the Server Table
Data Hook ignores the token: whenever its endpoint is non-empty it
issues the request (the token is merely forwarded into the request
options), regardless of whether a token is present. -/
theorem c5_token_gating_amended :
    (∀ st : ReportingState String, reportingEffectStart none st = (⟨[], false, none⟩, false)) ∧
    (∀ st : ReportingState String, reportingEffectStart (some "") st = (⟨[], false, none⟩, false)) ∧
    (∀ (endpoint : String) (token : Option String) (st : TableFetchState String),
      endpoint ≠ "" →
      serverTableEffectStart endpoint token st
        = ({ st with loading := true, error := none }, true)) := by
  refine ⟨fun st => rfl, fun st => rfl, fun endpoint token st h => ?_⟩
  simp [serverTableEffectStart, h]

/-- Claim C5 witness: the amended theorem applied to the transactions
endpoint with no token. -/
theorem c5_token_gating_amended_witness :
    serverTableEffectStart "/transactions" none
        (⟨[], 0, 0, false, none⟩ : TableFetchState String)
      = (⟨[], 0, 0, true, none⟩, true) :=
  c5_token_gating_amended.2.2 "/transactions" none ⟨[], 0, 0, false, none⟩ (by decide)

/-! ## Claim C6 — local surfacing of 401 errors -/

/-- Claim C6 counterexample: a fetch failing with HTTP status 401,
resolved through the Server Table Data Hook with the `ServerDataTable`
default error mapper, *does* set the call's local error state — to the
user-facing session-expired message — rather than suppressing it. -/
theorem c6_counterexample_default_mapper_401_sets_local_error :
    (serverTableApplyResolve (fun e => some (defaultMapErrorMessage e))
        (⟨[], 0, 0, true, none⟩ : TableFetchState String)
        (FetchOutcome.failure (JsError.api 401 "Unauthorized" none))).error
      = some "Your session has expired. Please sign in again." := by
  decide

/-- Claim C6 (amended): on a 401 the *reporting* hooks do suppress the
locally-surfaced error (their catch block returns before `setError`,
leaving the error state untouched), but the Server Table Data Hook with
its default mapper maps a 401 `ApiError` to the session-expired message
and stores it as the call's local error state. -/
theorem c6_local_401_error_amended :
    (∀ (st : ReportingState String) (o : ApiErrorMessageOptions) (stx : String)
        (bt : Option String),
      reportingCatch false o st (JsError.api 401 stx bt) = st) ∧
    (∀ (stx : String) (bt : Option String),
      defaultMapErrorMessage (JsError.api 401 stx bt)
        = "Your session has expired. Please sign in again.") ∧
    (∀ (st : TableFetchState String) (stx : String) (bt : Option String),
      (serverTableApplyResolve (fun e => some (defaultMapErrorMessage e)) st
          (FetchOutcome.failure (JsError.api 401 stx bt))).error
        = some "Your session has expired. Please sign in again.") :=
  ⟨fun _ _ _ _ => rfl, fun _ _ => rfl, fun _ _ _ => rfl⟩

/-! ## Claim C7 — debounced search controller transitions -/

/-- Claim C7 (confirmed): on every change of `pendingSearch` the value
is trimmed; when the trimmed length reaches `minLength` or is exactly 0
the trimmed value is committed to `search` immediately (and no timer is
left armed — the previous effect's cleanup cancelled any pending one);
otherwise a commit of the trimmed value is scheduled after `delayMs`,
replacing (cancelling) any previously scheduled commit, and `search` is
unchanged until the timer fires; `reset()` clears both values and
commits the empty string immediately. -/
theorem c7_useDebouncedSearch_transitions (minLength delayMs : Nat) (st : DebounceState)
    (value : String) :
    (jsStrLength (jsTrim value) ≥ minLength ∨ jsStrLength (jsTrim value) = 0 →
      debounceOnChange minLength delayMs st value
        = ⟨jsTrim value, value, none, st.commits ++ [jsTrim value]⟩) ∧
    (jsStrLength (jsTrim value) < minLength → jsStrLength (jsTrim value) ≠ 0 →
      debounceOnChange minLength delayMs st value
        = ⟨st.search, value, some (delayMs, jsTrim value), st.commits⟩) ∧
    (∀ (d : Nat) (t : String), st.scheduled = some (d, t) →
      debounceTimerFire st = ⟨t, st.pendingSearch, none, st.commits ++ [t]⟩) ∧
    ((debounceReset minLength delayMs st).search = "" ∧
      (debounceReset minLength delayMs st).pendingSearch = "" ∧
      ((debounceReset minLength delayMs st).commits = st.commits ++ [""] ∨
        (debounceReset minLength delayMs st).commits = st.commits ++ ["", ""])) := by
  refine ⟨?_, ?_, ?_, ?_⟩
  · intro h
    unfold debounceOnChange
    rw [if_pos h]
  · intro h1 h2
    unfold debounceOnChange
    rw [if_neg (by omega)]
  · intro d t h
    unfold debounceTimerFire
    rw [h]
  · unfold debounceReset
    by_cases hp : st.pendingSearch = ""
    · simp [hp]
    · simp [hp, debounceOnChange, jsTrim, chTrim, jsStrLength]

/-- Claim C7 witness: the transition theorem applied with
`minLength = 3`, `delayMs = 2500`: typing `"ab"` only arms the timer,
typing `"abc"` commits immediately, and the armed timer firing commits
its stored value. -/
theorem c7_useDebouncedSearch_transitions_witness :
    debounceOnChange 3 2500 ⟨"", "", none, []⟩ "ab" = ⟨"", "ab", some (2500, "ab"), []⟩ ∧
    debounceOnChange 3 2500 ⟨"", "", none, []⟩ "abc" = ⟨"abc", "abc", none, ["abc"]⟩ ∧
    debounceTimerFire ⟨"", "ab", some (2500, "ab"), []⟩ = ⟨"ab", "ab", none, ["ab"]⟩ :=
  ⟨(c7_useDebouncedSearch_transitions 3 2500 ⟨"", "", none, []⟩ "ab").2.1 (by decide) (by decide),
    (c7_useDebouncedSearch_transitions 3 2500 ⟨"", "", none, []⟩ "abc").1 (by decide),
    (c7_useDebouncedSearch_transitions 3 2500 ⟨"", "ab", some (2500, "ab"), []⟩ "x").2.2.1
      2500 "ab" rfl⟩

/-! ## Claim C10 — buildAuthHeader idempotence -/

/-- Claim C10 (confirmed): for every non-empty token `t` the built
header exists and starts with `"Bearer "`, and `buildAuthHeader` is
idempotent on it; a `null` or empty token yields no header. -/
theorem c10_buildAuthHeader_idempotent (t : String) (h : t ≠ "") :
    (∃ s, buildAuthHeader (some t) = some s ∧ jsStartsWith s "Bearer " = true) ∧
    buildAuthHeader (buildAuthHeader (some t)) = buildAuthHeader (some t) ∧
    buildAuthHeader none = none ∧
    buildAuthHeader (some "") = none := by
  by_cases hb : jsStartsWith t "Bearer " = true
  · refine ⟨⟨t, by simp [buildAuthHeader, h, hb], hb⟩, ?_, rfl, rfl⟩
    simp [buildAuthHeader, h, hb]
  · have hb' : jsStartsWith t "Bearer " = false := by
      simpa using hb
    have hfull : jsStartsWith ("Bearer " ++ t) "Bearer " = true := by
      unfold jsStartsWith
      rw [String.data_append]
      exact listStartsWith_append _ _
    have hne : ("Bearer " ++ t) ≠ "" := by
      intro hE
      have : ("Bearer " ++ t).data = ("" : String).data := by rw [hE]
      rw [String.data_append] at this
      simp at this
    refine ⟨⟨"Bearer " ++ t, by simp [buildAuthHeader, h, hb'], hfull⟩, ?_, rfl, rfl⟩
    simp [buildAuthHeader, h, hb', hne, hfull]

/-- Claim C10 witness: idempotence applied at the concrete token
`"tok"`, whose built header is `"Bearer tok"`. -/
theorem c10_buildAuthHeader_idempotent_witness :
    buildAuthHeader (buildAuthHeader (some "tok")) = buildAuthHeader (some "tok") ∧
    buildAuthHeader (some "tok") = some "Bearer tok" :=
  ⟨(c10_buildAuthHeader_idempotent "tok" (by decide)).2.1, by decide⟩

/-! ## Claim C8 — malformed stored tokens on session load -/

/-- Claim C8 counterexample: the stored token `"garbage"` has no
decodable expiry claim (`decodeJwtExp` yields `none`: no second
dot-separated part), yet `loadAuthToken` returns it unchanged — it is
treated as a *valid* token, not as absent, contradicting the claim that
every malformed token makes `loadAuthToken` return null. -/
theorem c8_counterexample_malformed_token_returned :
    decodeJwtExp "garbage" = none ∧
    loadAuthToken [("authToken", "garbage")] 12345
      = (some "garbage", [("authToken", "garbage")]) := by
  decide

/-- Claim C8 (amended): a stored token whose expiry claim cannot be
decoded is treated as *not expired* (the `if (!exp) return false`
branch of `isTokenExpired`) and is returned as-is by `loadAuthToken` —
neither removed nor reported as an error; only a decodable, nonzero,
already-passed expiry makes the token count as absent. -/
theorem c8_malformed_token_treated_as_valid (store : List (String × String))
    (nowSeconds : Int) (t : String) (h1 : jsGet store "authToken" = some t)
    (h2 : t ≠ "") (h3 : decodeJwtExp t = none) :
    loadAuthToken store nowSeconds = (some t, store) := by
  have hexp : isTokenExpired t nowSeconds = false := by
    unfold isTokenExpired
    rw [h3]
  simp [loadAuthToken, h1, h2, hexp]

/-- Claim C8 witness: the amended theorem applied to a store holding
the undecodable token `"garbage"`. -/
theorem c8_malformed_token_treated_as_valid_witness :
    loadAuthToken [("authToken", "garbage")] 98765
      = (some "garbage", [("authToken", "garbage")]) :=
  c8_malformed_token_treated_as_valid [("authToken", "garbage")] 98765 "garbage"
    (by decide) (by decide) (by decide)

/-! ## Claim C9 — expired stored tokens are removed on session load -/

/-- Claim C9 counterexample: the token `"x.eyJleHAiOjB9"` decodes to
the expiry claim `exp = 0` — a time at (long before) the current time
`12345` — yet `loadAuthToken` returns the token and removes nothing:
`isTokenExpired`'s falsy check `if (!exp) return false` treats a zero
expiry as "no expiry", so a token whose decoded expiry is in the past
*is* returned, contradicting the claim. -/
theorem c9_counterexample_exp_zero_token_retained :
    decodeJwtExp "x.eyJleHAiOjB9" = some 0 ∧
    (0 : Rat) ≤ (12345 : Rat) ∧
    loadAuthToken [("authToken", "x.eyJleHAiOjB9"), ("authUser", "alice")] 12345
      = (some "x.eyJleHAiOjB9",
          [("authToken", "x.eyJleHAiOjB9"), ("authUser", "alice")]) := by
  decide

/-- Claim C9 (amended): when the stored token decodes to a *nonzero*
expiry claim at or before the current time, `loadAuthToken` removes
both the stored token and the stored user profile and returns null; a
decoded expiry of exactly zero escapes the check (treated as absent by
the falsy test), so such a token is returned although its expiry is in
the past. -/
theorem c9_expired_nonzero_token_removed (store : List (String × String))
    (nowSeconds : Int) (t : String) (e : Rat) (h1 : jsGet store "authToken" = some t)
    (h2 : t ≠ "") (h3 : decodeJwtExp t = some e) (h4 : e ≠ 0)
    (h5 : e ≤ (nowSeconds : Rat)) :
    loadAuthToken store nowSeconds
      = (none, jsRemove (jsRemove store "authToken") "authUser") := by
  have hexp : isTokenExpired t nowSeconds = true := by
    unfold isTokenExpired
    rw [h3]
    show (if e = 0 then false else decide (e ≤ (nowSeconds : Rat))) = true
    rw [if_neg h4]
    exact decide_eq_true h5
  simp [loadAuthToken, h1, h2, hexp]

/-- Claim C9 witness: the amended theorem applied to a store holding
`"x.eyJleHAiOjF9"` (decoded expiry claim 1, i.e. one second past the
epoch) at current time `12345`: the token and the user profile are both
removed and null is returned. -/
theorem c9_expired_nonzero_token_removed_witness :
    loadAuthToken [("authToken", "x.eyJleHAiOjF9"), ("authUser", "alice")] 12345
      = (none, []) :=
  c9_expired_nonzero_token_removed
    [("authToken", "x.eyJleHAiOjF9"), ("authUser", "alice")] 12345 "x.eyJleHAiOjF9" 1
    (by decide) (by decide) (by decide) (by decide) (by norm_num)
